import Mathlib

set_option autoImplicit false

/-!
Shallow embedding of the flagd Redis sync provider
(core/pkg/sync/redis/redis_sync.go) and its standalone orchestrator
(flagd/pkg/service/redis-sync/service.go).

External collaborators (the go-redis client, utils.ConvertToJSON,
sha3+base64 hashing, the cron library, the evaluator) are modelled at
their boundary: client responses and the SetState result are inputs,
format conversion and hashing are function parameters of an `Env`.
-/

namespace Flagd.RedisSync

/-- Go errors are modelled by their message string. -/
abbrev GoError := String

/-- sync.DataSync, the event sent on the dataSync channel. -/
structure DataSync where
  FlagData : String
  Source : String
deriving DecidableEq

/-- The mutable fields of the redis.Sync struct (redis_sync.go lines 22-34).
The Client, Cron and Logger handles carry no modelled state. -/
structure SyncStruct where
  URI : String
  Key : String
  Database : Int
  Password : String
  TLS : Bool
  Interval : Nat
  LastSHA : String
  ready : Bool
deriving DecidableEq

/-- Outcome of one Redis client call (JSONGet or Get): a value, the
redis.Nil sentinel (missing key), or another error. -/
inductive Reply where
  | ok (val : String)
  | errNil
  | errOther (e : GoError)
deriving DecidableEq

/-- External pure collaborators used by fetchData:
`conv` models utils.ConvertToJSON with extension .json and content type
application/json; `sha` models generateSHA (SHA3-256 then URL-safe
base64, always a 44-character token, hence never empty). -/
structure Env where
  conv : String → Except GoError String
  sha : String → String

/-- fetchData (redis_sync.go lines 200-272): try JSON.GET; on any
JSON.GET error (redis.Nil included) fall back to GET; redis.Nil from GET
is the missing key, returned as empty string with no error. On a
non-empty converted payload the stored LastSHA is updated. The
nil-interface and non-string branches of the JSON.GET result are
unreachable through the typed go-redis API and are not modelled. -/
def fetchData (env : Env) (jsonReply getReply : Reply) (rs : SyncStruct) :
    Except GoError String × SyncStruct :=
  match jsonReply with
  | .ok jsonString =>
      if jsonString = "" then (.ok (""), rs)
      else
        match env.conv jsonString with
        | .error e => (.error ("error converting Redis JSON to standard format: " ++ e), rs)
        | .ok convertedJSON =>
            if convertedJSON = "" then (.ok convertedJSON, rs)
            else (.ok convertedJSON, { rs with LastSHA := env.sha convertedJSON })
  | _ =>
      match getReply with
      | .errNil => (.ok (""), rs)
      | .errOther e => (.error ("failed to get data from Redis: " ++ e), rs)
      | .ok jsonString =>
          if jsonString = "" then (.ok (""), rs)
          else
            match env.conv jsonString with
            | .error e => (.error ("error converting Redis data to standard JSON format: " ++ e), rs)
            | .ok convertedJSON =>
                if convertedJSON = "" then (.ok convertedJSON, rs)
                else (.ok convertedJSON, { rs with LastSHA := env.sha convertedJSON })

/-- The data part of fetchData, which does not depend on the state. -/
def fetchResult (env : Env) (jsonReply getReply : Reply) : Except GoError String :=
  (fetchData env jsonReply getReply
    { URI := "", Key := "", Database := 0, Password := "", TLS := false,
      Interval := 0, LastSHA := "", ready := false }).1

/-- The cron callback (redis_sync.go lines 136-157): remember LastSHA,
fetch, swallow errors, skip empty payloads, emit when the previous SHA
was unset or differs from the refreshed one. -/
def cronCycle (env : Env) (jsonReply getReply : Reply) (rs : SyncStruct) :
    SyncStruct × List DataSync :=
  let previousSHA := rs.LastSHA
  match fetchData env jsonReply getReply rs with
  | (.error _, rs1) => (rs1, [])
  | (.ok data, rs1) =>
      if data = "" then (rs1, [])
      else if previousSHA = "" then (rs1, [{ FlagData := data, Source := rs.URI }])
      else if previousSHA ≠ rs1.LastSHA then (rs1, [{ FlagData := data, Source := rs.URI }])
      else (rs1, [])

/-- The initial fetch of Sync (redis_sync.go lines 159-171): a fetch
error is returned; otherwise a non-empty payload is emitted
unconditionally and ready is set to true. -/
def syncInitial (env : Env) (jsonReply getReply : Reply) (rs : SyncStruct) :
    Except GoError (SyncStruct × List DataSync) :=
  match fetchData env jsonReply getReply rs with
  | (.error e, _) => .error ("initial Redis fetch failed: " ++ e)
  | (.ok data, rs1) =>
      .ok ({ rs1 with ready := true },
           if data = "" then [] else [{ FlagData := data, Source := rs.URI }])

/-- ReSync (redis_sync.go lines 181-192): one fetch, errors returned to
the caller, any non-empty payload emitted unconditionally; ready is not
touched. -/
def reSync (env : Env) (jsonReply getReply : Reply) (rs : SyncStruct) :
    Except GoError (SyncStruct × List DataSync) :=
  match fetchData env jsonReply getReply rs with
  | (.error e, _) => .error ("Redis resync failed: " ++ e)
  | (.ok data, rs1) =>
      .ok (rs1, if data = "" then [] else [{ FlagData := data, Source := rs.URI }])

/-- IsReady (redis_sync.go lines 195-197). -/
def isReady (rs : SyncStruct) : Bool := rs.ready

/-- SetInterval (redis_sync.go lines 282-284). -/
def setInterval (rs : SyncStruct) (interval : Nat) : SyncStruct :=
  { rs with Interval := interval }

/-- The recurrence expression Sync hands to Cron.AddFunc
(redis_sync.go line 136): the interval is printed into the first field
of a five-field expression. -/
def syncCronSpec (rs : SyncStruct) : String :=
  "*/" ++ toString rs.Interval ++ " * * * *"

/-- The emissions of a fallible cycle; an error produces none. -/
def emissionsOf : Except GoError (SyncStruct × List DataSync) → List DataSync
  | .ok (_, evs) => evs
  | .error _ => []

/-- The periodic trigger firing a list of times, each with its own pair
of client replies, threading the Sync state. -/
def runPeriodics (env : Env) (rs : SyncStruct) :
    List (Reply × Reply) → SyncStruct × List DataSync
  | [] => (rs, [])
  | i :: is =>
      let (rs1, ev) := cronCycle env i.1 i.2 rs
      let (rs2, evs) := runPeriodics env rs1 is
      (rs2, ev ++ evs)

/-- Result of a whole Sync call that ran until context cancellation. -/
structure SyncOutcome where
  state : SyncStruct
  events : List DataSync
  cronStopped : Bool
  cronSpecUsed : String
deriving DecidableEq

/-- Sync (redis_sync.go lines 132-178): register the cron callback (the
AddFunc error is discarded), run the initial cycle (its failure is the
one fatal path), start the cron, let the periodic cycles in `periodics`
fire until the context is cancelled, stop the cron and return nil. -/
def syncRun (env : Env) (rs : SyncStruct) (jsonReply getReply : Reply)
    (periodics : List (Reply × Reply)) : Except GoError SyncOutcome :=
  match syncInitial env jsonReply getReply rs with
  | .error e => .error e
  | .ok (rs1, ev0) =>
      let (rs2, evs) := runPeriodics env rs1 periodics
      .ok { state := rs2, events := ev0 ++ evs, cronStopped := true,
            cronSpecUsed := syncCronSpec rs }

/-- A fetch-and-maybe-emit cycle on any of the three paths, as a total
step function (failed fallible cycles leave the state and emit nothing,
matching how their callers swallow or log the error). -/
inductive CycleKind where
  | initial
  | periodic
  | onDemand
deriving DecidableEq

/-- Run one cycle of the given kind. -/
def runCycle (env : Env) (k : CycleKind) (jsonReply getReply : Reply)
    (rs : SyncStruct) : SyncStruct × List DataSync :=
  match k with
  | .periodic => cronCycle env jsonReply getReply rs
  | .initial =>
      match syncInitial env jsonReply getReply rs with
      | .ok out => out
      | .error _ => (rs, [])
  | .onDemand =>
      match reSync env jsonReply getReply rs with
      | .ok out => out
      | .error _ => (rs, [])

/-- Result of url.Parse on the connection string, as read by
NewRedisSync: scheme, host, path, embedded user info (present or not,
with an optional password), and the query pairs in order. -/
structure ParsedURI where
  Scheme : String
  Host : String
  Path : String
  HasUser : Bool
  UserPassword : Option String
  Query : List (String × String)
deriving DecidableEq

/-- url.Values.Get: the first value bound to the name, or empty. -/
def queryGet (q : List (String × String)) (k : String) : String :=
  match q.find? (fun p => p.1 = k) with
  | some p => p.2
  | none => ""

/-- strings.TrimPrefix with the separator slash: drop one leading slash
when present. -/
def trimSlash (s : String) : String :=
  match s.data with
  | [] => s
  | c :: cs => if c = '/' then String.mk cs else s

/-- strconv.Atoi on a 64-bit platform: optional sign, one or more
decimal digits, value within the signed 64-bit range; anything else is
an error, modelled as none. -/
def goAtoi (s : String) : Option Int :=
  let core := fun (sign : Int) (digits : List Char) =>
    if digits = [] then none
    else if digits.all (fun c => c.isDigit) then
      let v : Int :=
        sign * ((digits.foldl (fun a c => a * 10 + (c.toNat - 48)) 0 : Nat) : Int)
      if -(2 ^ 63) ≤ v ∧ v < 2 ^ 63 then some v else none
    else none
  match s.data with
  | '-' :: rest => core (-1) rest
  | '+' :: rest => core 1 rest
  | l => core 1 l

/-- NewRedisSync (redis_sync.go lines 52-118) after url.Parse: scheme
check, host default, database from the path (default 0 when the path is
empty, a bare slash, or fails Atoi), password from user info, mandatory
key query parameter, TLS from the scheme, interval default 30. The
missing-key message is the source string without its inner quotes. -/
def newRedisSync (uri : String) (parsed : Except GoError ParsedURI) :
    Except GoError SyncStruct :=
  match parsed with
  | .error e => .error ("invalid Redis URI: " ++ e)
  | .ok p =>
      if p.Scheme ≠ "redis" ∧ p.Scheme ≠ "rediss" then
        .error ("unsupported scheme: " ++ p.Scheme ++ ", expected redis or rediss")
      else
        let database : Int :=
          if p.Path ≠ "" ∧ p.Path ≠ "/" then
            match goAtoi (trimSlash p.Path) with
            | some db => db
            | none => 0
          else 0
        let password := if p.HasUser then p.UserPassword.getD "" else ""
        let key := queryGet p.Query "key"
        if key = "" then
          .error ("Redis key must be specified in query parameter key")
        else
          .ok { URI := uri, Key := key, Database := database,
                Password := password, TLS := p.Scheme = "rediss",
                Interval := 30, LastSHA := "", ready := false }

/-- Modelled from the spec: the cron library behind Cron.AddFunc is an
external collaborator, and the spec describes the expression
`*/n * * * *` as a standard five-field recurrence whose first field is
the minute of the hour, so it fires exactly at whole minutes whose
minute-of-hour is divisible by n. `t` is a time in seconds. -/
def cronFiresAt (interval : Nat) (t : Nat) : Prop :=
  t % 60 = 0 ∧ t / 60 % 60 % interval = 0

instance (interval t : Nat) : Decidable (cronFiresAt interval t) := by
  unfold cronFiresAt; infer_instance

/-- Result of one consumer-loop step of the standalone service
(service.go, processSyncData and updateStoreFromSyncData):
which payload was handed to the evaluator/store, whether the gRPC
subscribers were notified, which events were sent on channels that no
consumer reads (the fresh channel given to the detached ReSync), the
possibly updated Redis sync state, and the error. -/
structure HandleResult where
  redisState : SyncStruct
  storeApplied : Option DataSync
  emittedToSubscribers : Bool
  droppedEvents : List DataSync
  err : Option GoError
deriving DecidableEq

/-- updateStoreFromSyncData together with the Emit call of its caller
(service.go lines 131-188): skip empty payloads, hand the payload to
evaluator.SetState (external, modelled as the `setState` argument
returning notifications, a resync-required flag and an error), and on a
resync-required result run ReSync on a detached task whose channel is
freshly created and never read, so its emissions are dropped.
`resyncInput` carries the client replies that detached ReSync sees. -/
def updateStoreFromSyncData (env : Env)
    (setState : DataSync → Nat × Bool × Option GoError)
    (resyncInput : Reply × Reply) (rs : SyncStruct) (data : DataSync) :
    HandleResult :=
  if data.FlagData = "" then
    { redisState := rs, storeApplied := none, emittedToSubscribers := true,
      droppedEvents := [], err := none }
  else
    match setState data with
    | (_, _, some e) =>
        { redisState := rs, storeApplied := some data,
          emittedToSubscribers := false, droppedEvents := [],
          err := some ("failed to update evaluator state: " ++ e) }
    | (_, true, none) =>
        match reSync env resyncInput.1 resyncInput.2 rs with
        | .ok (rs1, evs) =>
            { redisState := rs1, storeApplied := some data,
              emittedToSubscribers := true, droppedEvents := evs, err := none }
        | .error _ =>
            { redisState := rs, storeApplied := some data,
              emittedToSubscribers := true, droppedEvents := [], err := none }
    | (_, false, none) =>
        { redisState := rs, storeApplied := some data,
          emittedToSubscribers := true, droppedEvents := [], err := none }

/-! ### Characterization lemmas -/

/-- fetchData splits into a state-independent data result and a
fingerprint update that happens exactly on a non-empty success. -/
theorem fetchData_eq (env : Env) (jr gr : Reply) (rs : SyncStruct) :
    fetchData env jr gr rs =
      (fetchResult env jr gr,
       match fetchResult env jr gr with
       | .error _ => rs
       | .ok d => if d = "" then rs else { rs with LastSHA := env.sha d }) := by
  cases jr <;> cases gr <;>
    simp only [fetchData, fetchResult] <;>
    repeat' first
      | rfl
      | split
      | simp_all

/-- The cron callback in terms of fetchResult. -/
theorem cronCycle_eq (env : Env) (jr gr : Reply) (rs : SyncStruct) :
    cronCycle env jr gr rs =
      match fetchResult env jr gr with
      | .error _ => (rs, [])
      | .ok d =>
          if d = "" then (rs, [])
          else if rs.LastSHA = "" then
            ({ rs with LastSHA := env.sha d }, [{ FlagData := d, Source := rs.URI }])
          else if rs.LastSHA ≠ env.sha d then
            ({ rs with LastSHA := env.sha d }, [{ FlagData := d, Source := rs.URI }])
          else ({ rs with LastSHA := env.sha d }, []) := by
  simp only [cronCycle, fetchData_eq]
  rcases h : fetchResult env jr gr with e | d
  · rfl
  · by_cases hd : d = "" <;> simp [hd]

/-- ReSync in terms of fetchResult. -/
theorem reSync_eq (env : Env) (jr gr : Reply) (rs : SyncStruct) :
    reSync env jr gr rs =
      match fetchResult env jr gr with
      | .error e => .error ("Redis resync failed: " ++ e)
      | .ok d =>
          if d = "" then .ok (rs, [])
          else .ok ({ rs with LastSHA := env.sha d },
                    [{ FlagData := d, Source := rs.URI }]) := by
  simp only [reSync, fetchData_eq]
  rcases h : fetchResult env jr gr with e | d
  · rfl
  · by_cases hd : d = "" <;> simp [hd]

/-- The initial Sync cycle in terms of fetchResult. -/
theorem syncInitial_eq (env : Env) (jr gr : Reply) (rs : SyncStruct) :
    syncInitial env jr gr rs =
      match fetchResult env jr gr with
      | .error e => .error ("initial Redis fetch failed: " ++ e)
      | .ok d =>
          if d = "" then .ok ({ rs with ready := true }, [])
          else .ok ({ rs with LastSHA := env.sha d, ready := true },
                    [{ FlagData := d, Source := rs.URI }]) := by
  simp only [syncInitial, fetchData_eq]
  rcases h : fetchResult env jr gr with e | d
  · rfl
  · by_cases hd : d = "" <;> simp [hd]

/-- Any cycle kind, on its first-ever successful non-empty fetch, emits
exactly the one event carrying the payload and the source URI. -/
theorem runCycle_first_emits (env : Env) (k : CycleKind) (jr gr : Reply)
    (rs : SyncStruct) (d : String) (h0 : rs.LastSHA = "")
    (hf : fetchResult env jr gr = .ok d) (hd : d ≠ "") :
    (runCycle env k jr gr rs).2 = [{ FlagData := d, Source := rs.URI }] := by
  cases k <;>
    simp [runCycle, cronCycle_eq, reSync_eq, syncInitial_eq, hf, hd, h0]

/-- Any cycle kind, after a successful non-empty fetch of payload d,
leaves LastSHA equal to the fingerprint of d. -/
theorem runCycle_lastSHA (env : Env) (k : CycleKind) (jr gr : Reply)
    (rs : SyncStruct) (d : String)
    (hf : fetchResult env jr gr = .ok d) (hd : d ≠ "") :
    ((runCycle env k jr gr rs).1).LastSHA = env.sha d := by
  cases k <;>
    simp only [runCycle, cronCycle_eq, reSync_eq, syncInitial_eq, hf] <;>
    by_cases h0 : rs.LastSHA = "" <;>
    by_cases hne : rs.LastSHA = env.sha d <;>
    simp_all

/-- A periodic cycle that refetches the currently fingerprinted payload
emits nothing and keeps the fingerprint. -/
theorem cronCycle_unchanged (env : Env) (jr gr : Reply) (rs : SyncStruct)
    (d : String) (hsha : env.sha d ≠ "")
    (hf : fetchResult env jr gr = .ok d) (hd : d ≠ "")
    (hsame : rs.LastSHA = env.sha d) :
    cronCycle env jr gr rs = ({ rs with LastSHA := env.sha d }, []) := by
  simp [cronCycle_eq, hf, hd, hsame, hsha]

/-- Each cycle emits at most one event. -/
theorem cronCycle_len (env : Env) (jr gr : Reply) (rs : SyncStruct) :
    ((cronCycle env jr gr rs).2).length ≤ 1 := by
  simp only [cronCycle_eq]
  rcases h : fetchResult env jr gr with e | d
  · simp
  · by_cases hd : d = "" <;> by_cases h0 : rs.LastSHA = "" <;>
      by_cases hne : rs.LastSHA = env.sha d <;> simp_all

/-- The periodic loop emits at most one event per firing. -/
theorem runPeriodics_len (env : Env) (rs : SyncStruct)
    (ps : List (Reply × Reply)) :
    ((runPeriodics env rs ps).2).length ≤ ps.length := by
  induction ps generalizing rs with
  | nil => simp [runPeriodics]
  | cons i is ih =>
      simp only [runPeriodics, List.length_append, List.length_cons]
      have h1 := cronCycle_len env i.1 i.2 rs
      have h2 := ih (cronCycle env i.1 i.2 rs).1
      omega

/-! ### Concrete fixtures for witnesses and counterexamples -/

/-- Identity conversion (valid JSON passes through ConvertToJSON
unchanged) and a hash that tags the payload, concrete stand-ins for the
external collaborators. -/
def env0 : Env := { conv := fun s => .ok s, sha := fun s => "h" ++ s }

/-- A connection string fixture. -/
def uri0 : String := "redis://localhost:6379?key=flags"

/-- A freshly constructed provider state: fingerprint unset, not ready. -/
def rs0 : SyncStruct :=
  { URI := uri0, Key := "flags", Database := 0, Password := "",
    TLS := false, Interval := 30, LastSHA := "", ready := false }

/-- The provider state after fingerprinting payload p under env0. -/
def rsAfterP : SyncStruct := { rs0 with LastSHA := "hp" }

/-- The event for payload p from rs0. -/
def evP : DataSync := { FlagData := "p", Source := uri0 }

/-- The env0 hash is never the empty token, as for the real SHA3-256
plus base64 encoding. -/
theorem env0_sha_ne : ∀ s : String, env0.sha s ≠ "" := by
  intro s h
  have hlen := congrArg String.length h
  simp [env0, String.length_append] at hlen
  exact absurd hlen.1 (by decide)

/-! ### Claims -/

/-- C1, as frozen, is refuted: two consecutive successful ReSync cycles
that fetch the identical normalized payload p both emit, two emissions
in total instead of exactly one. -/
theorem c1_counterexample :
    reSync env0 (.ok ("p")) .errNil rs0 = .ok (rsAfterP, [evP]) ∧
    reSync env0 (.ok ("p")) .errNil rsAfterP = .ok (rsAfterP, [evP]) :=
  ⟨rfl, rfl⟩

/-- C1 (amended): across the initial, periodic and ReSync paths, a
first-ever successful non-empty cycle emits exactly once; when the
second of two consecutive successful cycles with identical normalized
payload is a periodic trigger cycle it emits nothing; and every further
periodic cycle refetching the fingerprinted payload emits nothing and
keeps the fingerprint. (Initial-Sync and ReSync cycles instead re-emit
even an unchanged payload.) -/
theorem c1_identical_payload_single_emission (env : Env) (k : CycleKind)
    (jr1 gr1 jr2 gr2 : Reply) (rs : SyncStruct) (d : String)
    (hsha : ∀ s, env.sha s ≠ "")
    (h1 : fetchResult env jr1 gr1 = .ok d) (hd : d ≠ "")
    (h2 : fetchResult env jr2 gr2 = .ok d) :
    (rs.LastSHA = "" →
       (runCycle env k jr1 gr1 rs).2 = [{ FlagData := d, Source := rs.URI }]) ∧
    (cronCycle env jr2 gr2 (runCycle env k jr1 gr1 rs).1).2 = [] ∧
    (∀ rs2 : SyncStruct, rs2.LastSHA = env.sha d →
       cronCycle env jr2 gr2 rs2 = ({ rs2 with LastSHA := env.sha d }, [])) := by
  refine ⟨fun h0 => runCycle_first_emits env k jr1 gr1 rs d h0 h1 hd, ?_,
          fun rs2 hs => cronCycle_unchanged env jr2 gr2 rs2 d (hsha d) h2 hd hs⟩
  have hL := runCycle_lastSHA env k jr1 gr1 rs d h1 hd
  rw [cronCycle_unchanged env jr2 gr2 _ d (hsha d) h2 hd hL]

/-- Witness for the amended C1 at a concrete ReSync-then-periodic pair. -/
theorem c1_witness :
    (runCycle env0 .onDemand (.ok ("p")) .errNil rs0).2 =
      [{ FlagData := "p", Source := rs0.URI }] ∧
    (cronCycle env0 (.ok ("p")) .errNil
      (runCycle env0 .onDemand (.ok ("p")) .errNil rs0).1).2 = [] :=
  ⟨(c1_identical_payload_single_emission env0 .onDemand (.ok ("p")) .errNil
      (.ok ("p")) .errNil rs0 "p" env0_sha_ne rfl (by decide) rfl).1 rfl,
   (c1_identical_payload_single_emission env0 .onDemand (.ok ("p")) .errNil
      (.ok ("p")) .errNil rs0 "p" env0_sha_ne rfl (by decide) rfl).2.1⟩

/-- C2: on each of the three paths, the first-ever successful fetch of a
non-empty normalized payload (fingerprint still unset) emits exactly one
event carrying the payload and the source URI. -/
theorem c2_first_fetch_always_emits (env : Env) (k : CycleKind)
    (jr gr : Reply) (rs : SyncStruct) (d : String) (h0 : rs.LastSHA = "")
    (hf : fetchResult env jr gr = .ok d) (hd : d ≠ "") :
    (runCycle env k jr gr rs).2 = [{ FlagData := d, Source := rs.URI }] :=
  runCycle_first_emits env k jr gr rs d h0 hf hd

/-- Witness for C2 on the initial-Sync path. -/
theorem c2_witness :
    (runCycle env0 .initial (.ok ("q")) .errNil rs0).2 =
      [{ FlagData := "q", Source := rs0.URI }] :=
  c2_first_fetch_always_emits env0 .initial (.ok ("q")) .errNil rs0 "q"
    rfl rfl (by decide)

/-- C3, as frozen, is refuted: a successful ReSync cycle on a fresh
provider completes (and even emits) yet leaves the ReadinessFlag false. -/
theorem c3_counterexample :
    reSync env0 (.ok ("p")) .errNil rs0 = .ok (rsAfterP, [evP]) ∧
    rs0.ready = false ∧ rsAfterP.ready = false :=
  ⟨rfl, rfl, rfl⟩

/-- C3 (amended): only the initial Sync cycle sets the ReadinessFlag,
to true on success regardless of emission; periodic trigger cycles and
ReSync leave the flag unchanged; since no operation clears it, once true
it never reverts. -/
theorem c3_readiness_latch (env : Env) (jr gr : Reply)
    (rs rs1 : SyncStruct) (evs : List DataSync) :
    (syncInitial env jr gr rs = .ok (rs1, evs) → rs1.ready = true) ∧
    ((cronCycle env jr gr rs).1).ready = rs.ready ∧
    (reSync env jr gr rs = .ok (rs1, evs) → rs1.ready = rs.ready) := by
  refine ⟨?_, ?_, ?_⟩
  · intro h
    rw [syncInitial_eq] at h
    rcases hf : fetchResult env jr gr with e | d <;> rw [hf] at h
    · exact absurd h (by simp)
    · by_cases hd : d = "" <;> simp [hd] at h <;> simp [← h.1]
  · rw [cronCycle_eq]
    rcases hf : fetchResult env jr gr with e | d
    · rfl
    · by_cases hd : d = "" <;> by_cases h0 : rs.LastSHA = "" <;>
        by_cases hne : rs.LastSHA = env.sha d <;> simp_all
  · intro h
    rw [reSync_eq] at h
    rcases hf : fetchResult env jr gr with e | d <;> rw [hf] at h
    · exact absurd h (by simp)
    · by_cases hd : d = "" <;> simp [hd] at h <;> simp [← h.1]

/-- Witness for the amended C3 at a concrete successful initial cycle
and a concrete periodic cycle. -/
theorem c3_witness :
    ({ rs0 with LastSHA := "hp", ready := true }).ready = true ∧
    ((cronCycle env0 (.ok ("p")) .errNil rs0).1).ready = rs0.ready :=
  ⟨(c3_readiness_latch env0 (.ok ("p")) .errNil rs0
      { rs0 with LastSHA := "hp", ready := true } [evP]).1 rfl,
   (c3_readiness_latch env0 (.ok ("p")) .errNil rs0 rs0 []).2.1⟩

/-- C4: when JSON.GET and GET both report the redis.Nil missing-key
sentinel, fetchData returns empty data with no error and an unchanged
state, the initial Sync cycle emits nothing yet still sets readiness,
and a periodic cycle emits nothing and changes nothing. -/
theorem c4_missing_key_is_empty_success (env : Env) (rs : SyncStruct) :
    fetchData env .errNil .errNil rs = (.ok (""), rs) ∧
    syncInitial env .errNil .errNil rs = .ok ({ rs with ready := true }, []) ∧
    cronCycle env .errNil .errNil rs = (rs, []) :=
  ⟨rfl, rfl, rfl⟩

/-- Sync after a successful initial cycle: the periodic cycles run, the
cron is stopped on cancellation, and the call returns without error. -/
theorem syncRun_of_ok (env : Env) (rs : SyncStruct) (jr gr : Reply)
    (ps : List (Reply × Reply)) (out : SyncStruct × List DataSync)
    (h : syncInitial env jr gr rs = .ok out) :
    syncRun env rs jr gr ps =
      .ok { state := (runPeriodics env out.1 ps).1,
            events := out.2 ++ (runPeriodics env out.1 ps).2,
            cronStopped := true, cronSpecUsed := syncCronSpec rs } := by
  unfold syncRun
  rw [h]

/-- The initial cycle emits at most one event. -/
theorem syncInitial_len (env : Env) (jr gr : Reply) (rs : SyncStruct)
    (out : SyncStruct × List DataSync)
    (h : syncInitial env jr gr rs = .ok out) : out.2.length ≤ 1 := by
  rw [syncInitial_eq] at h
  rcases hf : fetchResult env jr gr with e | d <;> rw [hf] at h
  · exact absurd h (by simp)
  · by_cases hd : d = "" <;> simp [hd] at h <;> simp [← h]

/-- C5: only the initial fetch is fatal to Sync — its failure is
returned; when it succeeds, Sync returns without error whatever the
periodic cycles encounter, and a periodic cycle whose fetch fails emits
nothing and leaves the state unchanged. -/
theorem c5_only_initial_fetch_fatal (env : Env) (rs : SyncStruct)
    (jr gr : Reply) (ps : List (Reply × Reply)) :
    (∀ e, fetchResult env jr gr = .error e →
       syncRun env rs jr gr ps = .error ("initial Redis fetch failed: " ++ e)) ∧
    (∀ d, fetchResult env jr gr = .ok d →
       ∃ o : SyncOutcome, syncRun env rs jr gr ps = .ok o) ∧
    (∀ (jr2 gr2 : Reply) (rs2 : SyncStruct) (e : GoError),
       fetchResult env jr2 gr2 = .error e →
       cronCycle env jr2 gr2 rs2 = (rs2, [])) := by
  refine ⟨?_, ?_, ?_⟩
  · intro e he
    unfold syncRun
    rw [syncInitial_eq, he]
  · intro d hd
    have hout : ∃ out, syncInitial env jr gr rs = .ok out := by
      rw [syncInitial_eq, hd]
      by_cases h : d = "" <;> simp [h]
    rcases hout with ⟨out, hout⟩
    exact ⟨_, syncRun_of_ok env rs jr gr ps out hout⟩
  · intro jr2 gr2 rs2 e he
    simp [cronCycle_eq, he]

/-- Witness for C5: a failing initial fetch aborts Sync with its error,
and the same failing replies inside a periodic cycle are swallowed. -/
theorem c5_witness :
    syncRun env0 rs0 (.errOther ("down")) (.errOther ("down")) [] =
      .error ("initial Redis fetch failed: failed to get data from Redis: down") ∧
    cronCycle env0 (.errOther ("down")) (.errOther ("down")) rs0 = (rs0, []) :=
  ⟨(c5_only_initial_fetch_fatal env0 rs0 (.errOther ("down"))
      (.errOther ("down")) []).1 ("failed to get data from Redis: down") rfl,
   (c5_only_initial_fetch_fatal env0 rs0 (.errOther ("down"))
      (.errOther ("down")) []).2.2 (.errOther ("down")) (.errOther ("down"))
      rs0 ("failed to get data from Redis: down") rfl⟩

/-- C6: whenever the initial fetch succeeded, Sync ends (on context
cancellation) with the cron stopped and a nil error, and the events are
exactly those of the cycles that fired before the stop — at most one per
cycle, none afterwards. -/
theorem c6_cancellation_not_a_failure (env : Env) (rs : SyncStruct)
    (jr gr : Reply) (ps : List (Reply × Reply)) (d : String)
    (hinit : fetchResult env jr gr = .ok d) :
    ∃ o : SyncOutcome, syncRun env rs jr gr ps = .ok o ∧
      o.cronStopped = true ∧ o.events.length ≤ 1 + ps.length := by
  have hout : ∃ out, syncInitial env jr gr rs = .ok out := by
    rw [syncInitial_eq, hinit]
    by_cases h : d = "" <;> simp [h]
  rcases hout with ⟨out, hout⟩
  refine ⟨_, syncRun_of_ok env rs jr gr ps out hout, rfl, ?_⟩
  have h1 := syncInitial_len env jr gr rs out hout
  have h2 := runPeriodics_len env out.1 ps
  simp only [List.length_append]
  omega

/-- Witness for C6 with one periodic firing after a successful initial
fetch. -/
theorem c6_witness :
    ∃ o : SyncOutcome,
      syncRun env0 rs0 (.ok ("p")) .errNil [(.ok ("p"), .errNil)] = .ok o ∧
      o.cronStopped = true ∧ o.events.length ≤ 1 + 1 :=
  c6_cancellation_not_a_failure env0 rs0 (.ok ("p")) .errNil
    [(.ok ("p"), .errNil)] "p" rfl

/-- A parsed connection string with an unrecognized scheme and no key
parameter. -/
def badParsed : ParsedURI :=
  { Scheme := "http", Host := "localhost:6379", Path := "",
    HasUser := false, UserPassword := none, Query := [] }

/-- C7, as frozen, is refuted on a connection string without a key but
with an unrecognized scheme: construction fails with the scheme error,
not the missing-key error. -/
theorem c7_counterexample :
    queryGet badParsed.Query "key" = "" ∧
    newRedisSync ("http://localhost:6379") (.ok badParsed) =
      .error ("unsupported scheme: http, expected redis or rediss") ∧
    ("unsupported scheme: http, expected redis or rediss" : String) ≠
      ("Redis key must be specified in query parameter key") :=
  ⟨rfl, rfl, by decide⟩

/-- C7 (amended): for every connection string with a recognized scheme
whose query parameters carry no non-empty key, construction fails with
the missing-key error, and no connector value is ever returned. -/
theorem c7_missing_key_fails_construction (uri : String) (p : ParsedURI)
    (hscheme : p.Scheme = "redis" ∨ p.Scheme = "rediss")
    (hkey : queryGet p.Query "key" = "") :
    newRedisSync uri (.ok p) =
      .error ("Redis key must be specified in query parameter key") ∧
    ∀ rs : SyncStruct, newRedisSync uri (.ok p) ≠ .ok rs := by
  have hs : ¬(p.Scheme ≠ "redis" ∧ p.Scheme ≠ "rediss") := by
    rcases hscheme with h | h <;> simp [h]
  have hmain : newRedisSync uri (.ok p) =
      .error ("Redis key must be specified in query parameter key") := by
    simp only [newRedisSync]
    rw [if_neg hs]
    simp only [hkey, if_pos]
  exact ⟨hmain, fun rs h => by rw [hmain] at h; exact absurd h (by simp)⟩

/-- A parsed redis-scheme connection string without a key parameter. -/
def noKeyParsed : ParsedURI :=
  { Scheme := "redis", Host := "localhost:6379", Path := "/0",
    HasUser := false, UserPassword := none, Query := [("other", "1")] }

/-- Witness for the amended C7. -/
theorem c7_witness :
    newRedisSync ("redis://localhost:6379/0?other=1") (.ok noKeyParsed) =
      .error ("Redis key must be specified in query parameter key") :=
  (c7_missing_key_fails_construction ("redis://localhost:6379/0?other=1")
    noKeyParsed (Or.inl rfl) rfl).1

/-- C8: any accepted connection string whose path is absent, a bare
slash, or not parseable by Atoi yields database index 0. -/
theorem c8_database_defaults_to_zero (uri : String) (p : ParsedURI)
    (rs : SyncStruct) (hacc : newRedisSync uri (.ok p) = .ok rs)
    (hpath : p.Path = "" ∨ p.Path = "/" ∨ goAtoi (trimSlash p.Path) = none) :
    rs.Database = 0 := by
  simp only [newRedisSync] at hacc
  by_cases hs : p.Scheme ≠ "redis" ∧ p.Scheme ≠ "rediss"
  · rw [if_pos hs] at hacc
    exact absurd hacc (by simp)
  · rw [if_neg hs] at hacc
    by_cases hk : queryGet p.Query "key" = ""
    · simp only [hk, if_pos] at hacc
      exact absurd hacc (by simp)
    · rw [if_neg hk] at hacc
      simp only [Except.ok.injEq] at hacc
      rw [← hacc]
      by_cases hc : p.Path ≠ "" ∧ p.Path ≠ "/"
      · rcases hpath with h | h | h
        · exact absurd h hc.1
        · exact absurd h hc.2
        · simp [if_pos hc, h]
      · simp [if_neg hc]

/-- A parsed connection string with a non-numeric path segment. -/
def nonNumParsed : ParsedURI :=
  { Scheme := "redis", Host := "localhost:6379", Path := "/abc",
    HasUser := false, UserPassword := none, Query := [("key", "flags")] }

/-- The connector built from nonNumParsed. -/
def rsNonNum : SyncStruct :=
  { URI := "redis://localhost:6379/abc?key=flags", Key := "flags",
    Database := 0, Password := "", TLS := false, Interval := 30,
    LastSHA := "", ready := false }

/-- Witness for C8 on a non-numeric path segment. -/
theorem c8_witness : rsNonNum.Database = 0 :=
  c8_database_defaults_to_zero ("redis://localhost:6379/abc?key=flags")
    nonNumParsed rsNonNum rfl (Or.inr (Or.inr rfl))

/-- C9: Sync hands the cron the five-field expression with the interval
printed into the first (minute) field; the outcome of a completed Sync
records that expression; under the five-field reading every firing time
is a whole minute, and for a positive interval below 60 a firing is
never followed by another one interval seconds later. -/
theorem c9_minute_granularity_cadence (rs : SyncStruct) (t : Nat)
    (hpos : 0 < rs.Interval) (hlt : rs.Interval < 60) :
    syncCronSpec rs = "*/" ++ toString rs.Interval ++ " * * * *" ∧
    (∀ (env : Env) (jr gr : Reply) (ps : List (Reply × Reply))
       (o : SyncOutcome), syncRun env rs jr gr ps = .ok o →
       o.cronSpecUsed = syncCronSpec rs) ∧
    (cronFiresAt rs.Interval t → t % 60 = 0) ∧
    (cronFiresAt rs.Interval t →
       ¬ cronFiresAt rs.Interval (t + rs.Interval)) := by
  refine ⟨rfl, ?_, fun h => h.1, ?_⟩
  · intro env jr gr ps o h
    unfold syncRun at h
    rcases hi : syncInitial env jr gr rs with e | out <;> rw [hi] at h
    · exact absurd h (by simp)
    · simp only [Except.ok.injEq] at h
      rw [← h]
  · intro h1 h2
    have ha := h1.1
    have hb := h2.1
    omega

/-- Witness for C9 at interval 30 and firing time 0. -/
theorem c9_witness :
    syncCronSpec rs0 = "*/" ++ toString rs0.Interval ++ " * * * *" ∧
    (cronFiresAt rs0.Interval 0 →
       ¬ cronFiresAt rs0.Interval (0 + rs0.Interval)) :=
  ⟨(c9_minute_granularity_cadence rs0 0 (by decide) (by decide)).1,
   (c9_minute_granularity_cadence rs0 0 (by decide) (by decide)).2.2.2⟩

/-- C10: when SetState demands a resync, the consumer-loop step hands
the store only the triggering payload, finishes without error, its
store effect is independent of whatever the detached ReSync fetches,
and every event the detached ReSync emits lands in the dropped set of
the fresh unread channel. -/
theorem c10_detached_resync_discarded (env : Env)
    (setState : DataSync → Nat × Bool × Option GoError)
    (input : Reply × Reply) (rs : SyncStruct) (data : DataSync) (n : Nat)
    (hne : data.FlagData ≠ "") (hss : setState data = (n, true, none)) :
    (updateStoreFromSyncData env setState input rs data).storeApplied = some data ∧
    (updateStoreFromSyncData env setState input rs data).err = none ∧
    (∀ input2 : Reply × Reply,
       (updateStoreFromSyncData env setState input2 rs data).storeApplied =
         some data) ∧
    (∀ (rs1 : SyncStruct) (evs : List DataSync),
       reSync env input.1 input.2 rs = .ok (rs1, evs) →
       (updateStoreFromSyncData env setState input rs data).droppedEvents = evs) := by
  have key : ∀ inp : Reply × Reply,
      updateStoreFromSyncData env setState inp rs data =
        match reSync env inp.1 inp.2 rs with
        | .ok (rs1, evs) =>
            { redisState := rs1, storeApplied := some data,
              emittedToSubscribers := true, droppedEvents := evs, err := none }
        | .error _ =>
            { redisState := rs, storeApplied := some data,
              emittedToSubscribers := true, droppedEvents := [], err := none } := by
    intro inp
    unfold updateStoreFromSyncData
    rw [if_neg hne, hss]
  refine ⟨?_, ?_, ?_, ?_⟩
  · rw [key input]
    rcases reSync env input.1 input.2 rs with e | ⟨rs1, evs⟩ <;> rfl
  · rw [key input]
    rcases reSync env input.1 input.2 rs with e | ⟨rs1, evs⟩ <;> rfl
  · intro input2
    rw [key input2]
    rcases reSync env input2.1 input2.2 rs with e | ⟨rs1, evs⟩ <;> rfl
  · intro rs1 evs h
    rw [key input, h]

/-- Witness for C10: a resync-demanding SetState with a concrete
payload and a concrete refetch. -/
theorem c10_witness :
    (updateStoreFromSyncData env0 (fun _ => (0, true, none))
       (.ok ("p"), .errNil) rs0 evP).storeApplied = some evP ∧
    (updateStoreFromSyncData env0 (fun _ => (0, true, none))
       (.ok ("p"), .errNil) rs0 evP).err = none :=
  ⟨(c10_detached_resync_discarded env0 (fun _ => (0, true, none))
      (.ok ("p"), .errNil) rs0 evP 0 (by decide) rfl).1,
   (c10_detached_resync_discarded env0 (fun _ => (0, true, none))
      (.ok ("p"), .errNil) rs0 evP 0 (by decide) rfl).2.1⟩

end Flagd.RedisSync
